import Mathlib

/-!
# nvtx4cpp: a verification development

A shallow embedding of `nvtx4cpp.hpp`, the scope-bound C++ adapter over the
NVIDIA Tool Extension C API.

* Pointers and backend handles are opaque machine words; the adapter never
  dereferences them, it only forwards them.
* The backend is external.  Every call the adapter makes is appended to a log,
  and the values the backend returns are given by a parameter of the model.
* A constructor takes the log and returns the object with the extended log; a
  destructor takes the object and the log and returns the extended log.
-/

namespace nvtx4cpp

/-! ## Values exchanged with the backend -/

/-- A `const char*`: the address held by the pointer (0 is the null pointer). -/
structure CharPtr where
  addr : Nat
  deriving DecidableEq, Repr

/-- A `std::string`, seen through the only member the adapter uses: the
pointer to its character buffer. -/
structure StdString where
  buffer : CharPtr
  deriving DecidableEq, Repr

/-- The member function `std::string::c_str()`. -/
def StdString.c_str (s : StdString) : CharPtr := s.buffer

/-- Modelled from the spec: `nvtxDomainHandle_t` of the backend header
`nvToolsExt.h`, an opaque backend-assigned handle of a domain. -/
structure nvtxDomainHandle_t where
  raw : Nat
  deriving DecidableEq, Repr

/-- Modelled from the spec: `nvtxStringHandle_t` of the backend header, an
opaque backend-assigned handle of a registered string. -/
structure nvtxStringHandle_t where
  raw : Nat
  deriving DecidableEq, Repr

/-- Modelled from the spec: `nvtxRangeId_t` of the backend header, the
correlation token the backend returns for a free-token range. -/
structure nvtxRangeId_t where
  raw : Nat
  deriving DecidableEq, Repr

/-- Modelled from the spec: the colour-type field of the event descriptor of
the backend header, "color-type (none / fixed-ARGB)". -/
inductive nvtxColorType_t where
  | NVTX_COLOR_UNKNOWN
  | NVTX_COLOR_ARGB
  deriving DecidableEq, Repr

/-- Modelled from the spec: the message-type discriminant of the event
descriptor of the backend header, "message-type (plain-text /
interned-reference)". -/
inductive nvtxMessageType_t where
  | NVTX_MESSAGE_TYPE_ASCII
  | NVTX_MESSAGE_TYPE_REGISTERED
  deriving DecidableEq, Repr

/-- Modelled from the spec: the message union of the event descriptor of the
backend header, "message (raw pointer XOR interned handle)".  The constructor
is the member of the union that was written last. -/
inductive nvtxMessageValue_t where
  | ascii (p : CharPtr)
  | registered (h : nvtxStringHandle_t)
  deriving DecidableEq, Repr

/-- Modelled from the spec: the event descriptor record `nvtxEventAttributes_t`
of the backend header, "version, size, category (numeric), color-type, color
(ARGB value), message-type, message". -/
structure nvtxEventAttributes_t where
  version : Nat
  size : Nat
  category : Nat
  colorType : nvtxColorType_t
  color : Nat
  messageType : nvtxMessageType_t
  message : nvtxMessageValue_t
  deriving DecidableEq, Repr

/-- One call into the backend, with the arguments it received.  A call that
takes a pointer to a descriptor is recorded with the descriptor it points
to. -/
inductive Call where
  | nvtxDomainCreate (name : CharPtr)
  | nvtxDomainDestroy (domain : nvtxDomainHandle_t)
  | nvtxDomainRegisterString (domain : nvtxDomainHandle_t) (string : CharPtr)
  | nvtxMark (name : CharPtr)
  | nvtxMarkEx (attr : nvtxEventAttributes_t)
  | nvtxDomainMarkEx (domain : nvtxDomainHandle_t) (attr : nvtxEventAttributes_t)
  | nvtxRangePush (name : CharPtr)
  | nvtxRangePushEx (attr : nvtxEventAttributes_t)
  | nvtxRangePop
  | nvtxDomainRangePushEx (domain : nvtxDomainHandle_t) (attr : nvtxEventAttributes_t)
  | nvtxDomainRangePop (domain : nvtxDomainHandle_t)
  | nvtxRangeStart (name : CharPtr)
  | nvtxRangeStartEx (attr : nvtxEventAttributes_t)
  | nvtxRangeEnd (id : nvtxRangeId_t)
  | nvtxDomainRangeStartEx (domain : nvtxDomainHandle_t) (attr : nvtxEventAttributes_t)
  | nvtxDomainRangeEnd (domain : nvtxDomainHandle_t) (id : nvtxRangeId_t)
  deriving DecidableEq, Repr

/-- The state of the backend as the adapter can observe it: the calls made so
far, oldest first. -/
abbrev Log := List Call

/-- Modelled from the spec: the backend library behind `nvToolsExt.h`, which
is not part of the sources.  Its two constants and the value each of its
calls returns are parameters; a returned value may depend on the calls made
before and on the arguments. -/
structure NvToolsExt where
  NVTX_VERSION : Nat
  NVTX_EVENT_ATTRIB_STRUCT_SIZE : Nat
  nvtxDomainCreate : Log → CharPtr → nvtxDomainHandle_t
  nvtxDomainRegisterString : Log → nvtxDomainHandle_t → CharPtr → nvtxStringHandle_t
  nvtxRangeStart : Log → CharPtr → nvtxRangeId_t
  nvtxRangeStartEx : Log → nvtxEventAttributes_t → nvtxRangeId_t
  nvtxDomainRangeStartEx : Log → nvtxDomainHandle_t → nvtxEventAttributes_t → nvtxRangeId_t

/-! ## Compile-time modes -/

/-- The enum `NvRangeMode`. -/
inductive NvRangeMode where
  | thread
  | process
  deriving DecidableEq, Repr

/-- The enum `NvDomainMode`. -/
inductive NvDomainMode where
  | none
  | custom
  deriving DecidableEq, Repr

/-! ## NvDomain and NvRegisteredString -/

/-- The class `NvDomain`: its only member is the handle. -/
structure NvDomain where
  m_handle : nvtxDomainHandle_t
  deriving DecidableEq, Repr

/-- The constructor `NvDomain(const char* domainName)`. -/
def NvDomain.ctor (lib : NvToolsExt) (domainName : CharPtr) (log : Log) : NvDomain × Log :=
  ({ m_handle := lib.nvtxDomainCreate log domainName }, log ++ [Call.nvtxDomainCreate domainName])

/-- The destructor `~NvDomain()`. -/
def NvDomain.dtor (self : NvDomain) (log : Log) : Log :=
  log ++ [Call.nvtxDomainDestroy self.m_handle]

/-- The member function `NvDomain::handle()`. -/
def NvDomain.handle (self : NvDomain) : nvtxDomainHandle_t := self.m_handle

/-- The class `NvRegisteredString`: its only member is the handle. -/
structure NvRegisteredString where
  m_handle : nvtxStringHandle_t
  deriving DecidableEq, Repr

/-- The constructor `NvRegisteredString(const NvDomain&, const char*)`. -/
def NvRegisteredString.ctor (lib : NvToolsExt) (domain : NvDomain) (string : CharPtr)
    (log : Log) : NvRegisteredString × Log :=
  ({ m_handle := lib.nvtxDomainRegisterString log domain.handle string },
    log ++ [Call.nvtxDomainRegisterString domain.handle string])

/-- The constructor `NvRegisteredString(const NvDomain&, const std::string&)`,
which delegates to the `const char*` one. -/
def NvRegisteredString.ctor_string (lib : NvToolsExt) (domain : NvDomain) (string : StdString)
    (log : Log) : NvRegisteredString × Log :=
  NvRegisteredString.ctor lib domain string.c_str log

/-- The member function `NvRegisteredString::handle()`.  The class declares no
destructor. -/
def NvRegisteredString.handle (self : NvRegisteredString) : nvtxStringHandle_t := self.m_handle

/-! ## NvColor and NvAttribute -/

/-- The enum class `NvColor`, enumerators in declaration order. -/
inductive NvColor where
  | unknown
  | dark_blue
  | blue
  | dark_green
  | green
  | dark_red
  | red
  | dark_yellow
  | yellow
  | dark_magenta
  | magenta
  | dark_cyan
  | cyan
  | dark_gray
  | gray
  | light_gray
  deriving DecidableEq, Repr

/-- Every enumerator of `NvColor`, in declaration order. -/
def NvColor.enumerators : List NvColor :=
  [.unknown, .dark_blue, .blue, .dark_green, .green, .dark_red, .red, .dark_yellow,
   .yellow, .dark_magenta, .magenta, .dark_cyan, .cyan, .dark_gray, .gray, .light_gray]

/-- The conversion `static_cast<size_t>(color)`: an enumerator without an
initialiser has the value of its predecessor plus one, the first one 0. -/
def NvColor.static_cast_size_t : NvColor → Nat
  | .unknown => 0
  | .dark_blue => 1
  | .blue => 2
  | .dark_green => 3
  | .green => 4
  | .dark_red => 5
  | .red => 6
  | .dark_yellow => 7
  | .yellow => 8
  | .dark_magenta => 9
  | .magenta => 10
  | .dark_cyan => 11
  | .cyan => 12
  | .dark_gray => 13
  | .gray => 14
  | .light_gray => 15

/-- The struct `NvAttribute`: its only non-static member is the descriptor. -/
structure NvAttribute where
  attr : nvtxEventAttributes_t
  deriving DecidableEq, Repr

/-- The static table `NvAttribute::predefined_colors`. -/
def NvAttribute.predefined_colors : List Nat :=
  [0x00000000,
   0xFF00007F,
   0xFF0000FF,
   0xFF007F00,
   0xFF00FF00,
   0xFF7F0000,
   0xFFFF0000,
   0xFF7F7F00,
   0xFFFFFF00,
   0xFF7F007F,
   0xFFFF00FF,
   0xFF007F7F,
   0xFF00FFFF,
   0xFF444444,
   0xFF888888,
   0xFFAAAAAA]

/-- The private constructor `NvAttribute(NvColor color, uint32_t category)`.
The member `attr` is not initialised before the body runs: `uninit` is what
its storage holds then, and the body assigns five fields of it.  The table
read `predefined_colors[...]` is unchecked in the source. -/
def NvAttribute.ctor_private (lib : NvToolsExt) (uninit : nvtxEventAttributes_t)
    (color : NvColor) (category : Nat) : NvAttribute :=
  { attr :=
      { uninit with
        version := lib.NVTX_VERSION
        size := lib.NVTX_EVENT_ATTRIB_STRUCT_SIZE
        category := category
        color := NvAttribute.predefined_colors.getD color.static_cast_size_t 0
        colorType :=
          if color ≠ NvColor.unknown then nvtxColorType_t.NVTX_COLOR_ARGB
          else nvtxColorType_t.NVTX_COLOR_UNKNOWN } }

/-- The constructor `NvAttribute(const char* msg, NvColor color, uint32_t
category)`: delegates to the private one, then writes the message. -/
def NvAttribute.ctor (lib : NvToolsExt) (uninit : nvtxEventAttributes_t)
    (msg : CharPtr) (color : NvColor) (category : Nat) : NvAttribute :=
  let self := NvAttribute.ctor_private lib uninit color category
  { attr :=
      { self.attr with
        messageType := nvtxMessageType_t.NVTX_MESSAGE_TYPE_ASCII
        message := nvtxMessageValue_t.ascii msg } }

/-- The constructor `NvAttribute(const NvRegisteredString& msg, NvColor color,
uint32_t category)`. -/
def NvAttribute.ctor_registered (lib : NvToolsExt) (uninit : nvtxEventAttributes_t)
    (msg : NvRegisteredString) (color : NvColor) (category : Nat) : NvAttribute :=
  let self := NvAttribute.ctor_private lib uninit color category
  { attr :=
      { self.attr with
        messageType := nvtxMessageType_t.NVTX_MESSAGE_TYPE_REGISTERED
        message := nvtxMessageValue_t.registered msg.handle } }

/-- The constructor `NvAttribute(const std::string& msg, NvColor color,
uint32_t category)`, which delegates to the `const char*` one. -/
def NvAttribute.ctor_string (lib : NvToolsExt) (uninit : nvtxEventAttributes_t)
    (msg : StdString) (color : NvColor) (category : Nat) : NvAttribute :=
  NvAttribute.ctor lib uninit msg.c_str color category

/-- The default argument `NvColor color = NvColor::unknown` of the public
constructors. -/
def NvAttribute.default_color : NvColor := NvColor.unknown

/-- The default argument `uint32_t category = 0` of the public constructors. -/
def NvAttribute.default_category : Nat := 0

/-- The discriminant of a descriptor names the member of the message union
that is stored in it. -/
def nvtxEventAttributes_t.tagNamesVariant (a : nvtxEventAttributes_t) : Bool :=
  match a.messageType, a.message with
  | .NVTX_MESSAGE_TYPE_ASCII, .ascii _ => true
  | .NVTX_MESSAGE_TYPE_REGISTERED, .registered _ => true
  | _, _ => false

/-! ## details::mark_ops and NvMark -/

namespace details

/-- The specialisation `mark_ops<NvDomainMode::none>`: no members. -/
structure mark_ops_none where
  deriving DecidableEq, Repr

/-- The constructor `mark_ops(const char* name)` of `mark_ops<none>`. -/
def mark_ops_none.ctor (name : CharPtr) (log : Log) : mark_ops_none × Log :=
  ({}, log ++ [Call.nvtxMark name])

/-- The constructor `mark_ops(const NvAttribute& attr)` of `mark_ops<none>`. -/
def mark_ops_none.ctor_attr (attr : NvAttribute) (log : Log) : mark_ops_none × Log :=
  ({}, log ++ [Call.nvtxMarkEx attr.attr])

/-- The specialisation `mark_ops<NvDomainMode::custom>`: no members. -/
structure mark_ops_custom where
  deriving DecidableEq, Repr

/-- The constructor `mark_ops(const NvDomain& domain, const NvAttribute& attr)`
of `mark_ops<custom>`. -/
def mark_ops_custom.ctor (domain : NvDomain) (attr : NvAttribute) (log : Log) :
    mark_ops_custom × Log :=
  ({}, log ++ [Call.nvtxDomainMarkEx domain.handle attr.attr])

/-- The template `mark_ops<DOMAIN>`, by specialisation. -/
def mark_ops : NvDomainMode → Type
  | .none => mark_ops_none
  | .custom => mark_ops_custom

end details

/-- The class template `NvMark<DOMAIN>`: it derives from `mark_ops<DOMAIN>`,
inherits its constructors and adds no member. -/
abbrev NvMark (DOMAIN : NvDomainMode) : Type := details.mark_ops DOMAIN

/-- The alias `NvSimpleMark`. -/
abbrev NvSimpleMark : Type := NvMark NvDomainMode.none

/-- The alias `NvDomainMark`. -/
abbrev NvDomainMark : Type := NvMark NvDomainMode.custom

/-- The destructor of `NvMark<DOMAIN>`.  Neither `NvMark` nor `mark_ops`
declares one and there is no member to destroy: the implicit destructor has an
empty body. -/
def NvMark.dtor (DOMAIN : NvDomainMode) (_self : NvMark DOMAIN) (log : Log) : Log := log

/-! ## details::range_ops and NvRange -/

namespace details

/-- The specialisation `range_ops<thread, none>`: no members. -/
structure range_ops_thread_none where
  deriving DecidableEq, Repr

/-- The constructor `range_ops(const char* name)` of `range_ops<thread, none>`. -/
def range_ops_thread_none.ctor (name : CharPtr) (log : Log) : range_ops_thread_none × Log :=
  ({}, log ++ [Call.nvtxRangePush name])

/-- The constructor `range_ops(const NvAttribute& attr)` of
`range_ops<thread, none>`. -/
def range_ops_thread_none.ctor_attr (attr : NvAttribute) (log : Log) :
    range_ops_thread_none × Log :=
  ({}, log ++ [Call.nvtxRangePushEx attr.attr])

/-- The member function `end()` of `range_ops<thread, none>`. -/
def range_ops_thread_none.end_ (_self : range_ops_thread_none) (log : Log) : Log :=
  log ++ [Call.nvtxRangePop]

/-- The specialisation `range_ops<thread, custom>`.  The member `m_domain` is a
reference to a const `NvDomain`; a domain never changes after its construction,
so the reference is modelled by the domain it refers to. -/
structure range_ops_thread_custom where
  m_domain : NvDomain
  deriving DecidableEq, Repr

/-- The constructor `range_ops(const NvDomain& domain, const NvAttribute& attr)`
of `range_ops<thread, custom>`. -/
def range_ops_thread_custom.ctor (domain : NvDomain) (attr : NvAttribute) (log : Log) :
    range_ops_thread_custom × Log :=
  ({ m_domain := domain }, log ++ [Call.nvtxDomainRangePushEx domain.handle attr.attr])

/-- The member function `end()` of `range_ops<thread, custom>`. -/
def range_ops_thread_custom.end_ (self : range_ops_thread_custom) (log : Log) : Log :=
  log ++ [Call.nvtxDomainRangePop self.m_domain.handle]

/-- The specialisation `range_ops<process, none>`. -/
structure range_ops_process_none where
  m_h : nvtxRangeId_t
  deriving DecidableEq, Repr

/-- The constructor `range_ops(const char* name)` of `range_ops<process, none>`. -/
def range_ops_process_none.ctor (lib : NvToolsExt) (name : CharPtr) (log : Log) :
    range_ops_process_none × Log :=
  ({ m_h := lib.nvtxRangeStart log name }, log ++ [Call.nvtxRangeStart name])

/-- The constructor `range_ops(const NvAttribute& attr)` of
`range_ops<process, none>`. -/
def range_ops_process_none.ctor_attr (lib : NvToolsExt) (attr : NvAttribute) (log : Log) :
    range_ops_process_none × Log :=
  ({ m_h := lib.nvtxRangeStartEx log attr.attr }, log ++ [Call.nvtxRangeStartEx attr.attr])

/-- The member function `end()` of `range_ops<process, none>`. -/
def range_ops_process_none.end_ (self : range_ops_process_none) (log : Log) : Log :=
  log ++ [Call.nvtxRangeEnd self.m_h]

/-- The specialisation `range_ops<process, custom>`; `m_domain` as in
`range_ops<thread, custom>`. -/
structure range_ops_process_custom where
  m_domain : NvDomain
  m_h : nvtxRangeId_t
  deriving DecidableEq, Repr

/-- The constructor `range_ops(const NvDomain& domain, const NvAttribute& attr)`
of `range_ops<process, custom>`. -/
def range_ops_process_custom.ctor (lib : NvToolsExt) (domain : NvDomain) (attr : NvAttribute)
    (log : Log) : range_ops_process_custom × Log :=
  ({ m_domain := domain, m_h := lib.nvtxDomainRangeStartEx log domain.handle attr.attr },
    log ++ [Call.nvtxDomainRangeStartEx domain.handle attr.attr])

/-- The member function `end()` of `range_ops<process, custom>`. -/
def range_ops_process_custom.end_ (self : range_ops_process_custom) (log : Log) : Log :=
  log ++ [Call.nvtxDomainRangeEnd self.m_domain.handle self.m_h]

/-- The template `range_ops<MODE, DOMAIN>`, by specialisation. -/
def range_ops : NvRangeMode → NvDomainMode → Type
  | .thread, .none => range_ops_thread_none
  | .thread, .custom => range_ops_thread_custom
  | .process, .none => range_ops_process_none
  | .process, .custom => range_ops_process_custom

/-- The member function `end()` of `range_ops<MODE, DOMAIN>`, by
specialisation. -/
def range_ops.end_ : (MODE : NvRangeMode) → (DOMAIN : NvDomainMode) →
    range_ops MODE DOMAIN → Log → Log
  | .thread, .none => range_ops_thread_none.end_
  | .thread, .custom => range_ops_thread_custom.end_
  | .process, .none => range_ops_process_none.end_
  | .process, .custom => range_ops_process_custom.end_

end details

/-- The class template `NvRange<MODE, DOMAIN>`: it derives from
`range_ops<MODE, DOMAIN>`, inherits its constructors and adds no member. -/
abbrev NvRange (MODE : NvRangeMode) (DOMAIN : NvDomainMode) : Type :=
  details.range_ops MODE DOMAIN

/-- The destructor `~NvRange() { this->end(); }`. -/
def NvRange.dtor (MODE : NvRangeMode) (DOMAIN : NvDomainMode) (self : NvRange MODE DOMAIN)
    (log : Log) : Log :=
  details.range_ops.end_ MODE DOMAIN self log

/-- The alias `NvThreadRange`. -/
abbrev NvThreadRange : Type := NvRange NvRangeMode.thread NvDomainMode.none

/-- The alias `NvDomainThreadRange`. -/
abbrev NvDomainThreadRange : Type := NvRange NvRangeMode.thread NvDomainMode.custom

/-- The alias `NvProcessRange`. -/
abbrev NvProcessRange : Type := NvRange NvRangeMode.process NvDomainMode.none

/-- The alias `NvDomainProcessRange`. -/
abbrev NvDomainProcessRange : Type := NvRange NvRangeMode.process NvDomainMode.custom

/-- The argument list of a default-domain emitter: the two overloads take
either raw text or an attribute. -/
inductive EmitArg where
  | name (name : CharPtr)
  | attr (attr : NvAttribute)
  deriving DecidableEq, Repr

/-- Overload resolution for the constructors of `NvThreadRange`. -/
def NvThreadRange.construct : EmitArg → Log → NvThreadRange × Log
  | .name n, log => details.range_ops_thread_none.ctor n log
  | .attr a, log => details.range_ops_thread_none.ctor_attr a log

/-- Overload resolution for the constructors of `NvProcessRange`. -/
def NvProcessRange.construct (lib : NvToolsExt) : EmitArg → Log → NvProcessRange × Log
  | .name n, log => details.range_ops_process_none.ctor lib n log
  | .attr a, log => details.range_ops_process_none.ctor_attr lib a log

/-- Overload resolution for the constructors of `NvSimpleMark`. -/
def NvSimpleMark.construct : EmitArg → Log → NvSimpleMark × Log
  | .name n, log => details.mark_ops_none.ctor n log
  | .attr a, log => details.mark_ops_none.ctor_attr a log

/-! ## Object lifetimes -/

/-- The begin call the backend observes for a thread-stack default-domain
range opened with the given argument. -/
def EmitArg.pushCall : EmitArg → Call
  | .name n => Call.nvtxRangePush n
  | .attr a => Call.nvtxRangePushEx a.attr

/-- Thread-stack default-domain ranges in nested blocks,
`{ NvThreadRange r1(a1); { NvThreadRange r2(a2); ... } }`: each range is
constructed, the inner blocks run, and the range is destroyed at the end of
its block. -/
def nestedThreadRanges : List EmitArg → Log → Log
  | [], log => log
  | a :: inner, log =>
    let (r, log1) := NvThreadRange.construct a log
    let log2 := nestedThreadRanges inner log1
    NvRange.dtor NvRangeMode.thread NvDomainMode.none r log2

/-- Modelled from the spec: the calling thread's implicit range stack kept by
the backend, "push onto the calling thread's implicit range stack (LIFO)" and
"pop the top of that same stack".  `opened` holds the begin calls of the ranges
still open, most recent first; `popped` the begin calls of the ranges closed so
far, in closing order. -/
structure ThreadStack where
  opened : List Call
  popped : List Call
  deriving DecidableEq, Repr

/-- Modelled from the spec: the effect of one backend call on the thread's
range stack.  Calls of the other families leave it alone. -/
def ThreadStack.step (s : ThreadStack) : Call → ThreadStack
  | .nvtxRangePush n => { s with opened := Call.nvtxRangePush n :: s.opened }
  | .nvtxRangePushEx a => { s with opened := Call.nvtxRangePushEx a :: s.opened }
  | .nvtxRangePop =>
    match s.opened with
    | [] => s
    | top :: below => { opened := below, popped := s.popped ++ [top] }
  | _ => s

/-- Modelled from the spec: the thread's range stack after a sequence of
backend calls. -/
def ThreadStack.replay (s : ThreadStack) (calls : List Call) : ThreadStack :=
  calls.foldl ThreadStack.step s

/-- What a block of code does with a domain during the lifetime of the
domain: registered strings, marks and ranges created against it, in sequence
and in nested blocks.  An attribute may be built from the registered strings
in scope. -/
inductive DomainClient where
  | skip
  | seq (first second : DomainClient)
  | registeredString (string : CharPtr)
  | registeredStdString (string : StdString)
  | mark (attr : List NvRegisteredString → NvAttribute)
  | threadRange (attr : List NvRegisteredString → NvAttribute) (body : DomainClient)
  | processRange (attr : List NvRegisteredString → NvAttribute) (body : DomainClient)

/-- Runs a client of `domain`.  `strings` are the registered strings in scope.
A range is constructed, the rest of its block runs, and the range is destroyed
at the end of the block; what the block declared goes out of scope with it. -/
def DomainClient.run (lib : NvToolsExt) (domain : NvDomain) :
    DomainClient → List NvRegisteredString → Log → List NvRegisteredString × Log
  | .skip, strings, log => (strings, log)
  | .seq first second, strings, log =>
    let (strings1, log1) := first.run lib domain strings log
    second.run lib domain strings1 log1
  | .registeredString string, strings, log =>
    let (r, log1) := NvRegisteredString.ctor lib domain string log
    (strings ++ [r], log1)
  | .registeredStdString string, strings, log =>
    let (r, log1) := NvRegisteredString.ctor_string lib domain string log
    (strings ++ [r], log1)
  | .mark attr, strings, log =>
    let (m, log1) := details.mark_ops_custom.ctor domain (attr strings) log
    (strings, NvMark.dtor NvDomainMode.custom m log1)
  | .threadRange attr body, strings, log =>
    let (r, log1) := details.range_ops_thread_custom.ctor domain (attr strings) log
    let (_, log2) := body.run lib domain strings log1
    (strings, NvRange.dtor NvRangeMode.thread NvDomainMode.custom r log2)
  | .processRange attr body, strings, log =>
    let (r, log1) := details.range_ops_process_custom.ctor lib domain (attr strings) log
    let (_, log2) := body.run lib domain strings log1
    (strings, NvRange.dtor NvRangeMode.process NvDomainMode.custom r log2)

/-- A block that owns a domain, `{ NvDomain d(domainName); client }`: the
domain is constructed, the client runs, and the domain is destroyed when the
block ends. -/
def NvDomain.scope (lib : NvToolsExt) (domainName : CharPtr) (client : DomainClient)
    (log : Log) : Log :=
  let (d, log1) := NvDomain.ctor lib domainName log
  let (_, log2) := client.run lib d [] log1
  d.dtor log2

/-- The call is `nvtxDomainCreate`. -/
def Call.isDomainCreate : Call → Bool
  | .nvtxDomainCreate _ => true
  | _ => false

/-- The call is `nvtxDomainDestroy`. -/
def Call.isDomainDestroy : Call → Bool
  | .nvtxDomainDestroy _ => true
  | _ => false

/-- The call is one that a registered string, a mark or a range makes against
the domain with handle `h`. -/
def Call.isAgainst (h : nvtxDomainHandle_t) : Call → Bool
  | .nvtxDomainRegisterString d _ => d = h
  | .nvtxDomainMarkEx d _ => d = h
  | .nvtxDomainRangePushEx d _ => d = h
  | .nvtxDomainRangePop d => d = h
  | .nvtxDomainRangeStartEx d _ => d = h
  | .nvtxDomainRangeEnd d _ => d = h
  | _ => false

/-- A block that holds one object and nothing else, `{ T x(args); }`: the
object is constructed and, when the block ends, destroyed. -/
def block {T : Type} (construct : Log → T × Log) (destroy : T → Log → Log) (log : Log) : Log :=
  let (x, log1) := construct log
  destroy x log1

/-- The begin call the backend observes for a free-token range of the default
domain that is opened with the given argument. -/
def EmitArg.startCall : EmitArg → Call
  | .name n => Call.nvtxRangeStart n
  | .attr a => Call.nvtxRangeStartEx a.attr

/-- The token the backend returns to the begin call of a free-token range of
the default domain opened with the given argument, after the calls `log`. -/
def EmitArg.startToken (lib : NvToolsExt) (log : Log) : EmitArg → nvtxRangeId_t
  | .name n => lib.nvtxRangeStart log n
  | .attr a => lib.nvtxRangeStartEx log a.attr

/-- Two free-token ranges of the default domain with overlapping lifetimes:
first X is opened, then Y; Y is closed, then X. -/
def openXYcloseYX (lib : NvToolsExt) (x y : EmitArg) (log : Log) : Log :=
  let (rangeX, log1) := NvProcessRange.construct lib x log
  let (rangeY, log2) := NvProcessRange.construct lib y log1
  let log3 := NvRange.dtor NvRangeMode.process NvDomainMode.none rangeY log2
  NvRange.dtor NvRangeMode.process NvDomainMode.none rangeX log3

/-- Two free-token ranges of the default domain with overlapping lifetimes:
first Y is opened, then X; Y is closed, then X. -/
def openYXcloseYX (lib : NvToolsExt) (x y : EmitArg) (log : Log) : Log :=
  let (rangeY, log1) := NvProcessRange.construct lib y log
  let (rangeX, log2) := NvProcessRange.construct lib x log1
  let log3 := NvRange.dtor NvRangeMode.process NvDomainMode.none rangeY log2
  NvRange.dtor NvRangeMode.process NvDomainMode.none rangeX log3

/-! ## Concrete inputs -/

/-- A backend whose every handle and token is the number of calls made before,
plus one. -/
def NvToolsExt.counting : NvToolsExt where
  NVTX_VERSION := 2
  NVTX_EVENT_ATTRIB_STRUCT_SIZE := 48
  nvtxDomainCreate := fun log _ => { raw := log.length + 1 }
  nvtxDomainRegisterString := fun log _ _ => { raw := log.length + 1 }
  nvtxRangeStart := fun log _ => { raw := log.length + 1 }
  nvtxRangeStartEx := fun log _ => { raw := log.length + 1 }
  nvtxDomainRangeStartEx := fun log _ _ => { raw := log.length + 1 }

/-- Some contents of uninitialised storage for a descriptor; its discriminant
and its message disagree. -/
def nvtxEventAttributes_t.stale : nvtxEventAttributes_t where
  version := 0xCDCD
  size := 0xCDCD
  category := 0xCDCDCDCD
  colorType := nvtxColorType_t.NVTX_COLOR_ARGB
  color := 0xCDCDCDCD
  messageType := nvtxMessageType_t.NVTX_MESSAGE_TYPE_REGISTERED
  message := nvtxMessageValue_t.ascii { addr := 0xCDCDCDCD }

/-! ## NvColor and the colour table -/

theorem NvColor.mem_enumerators (color : NvColor) : color ∈ NvColor.enumerators := by
  cases color <;> simp [NvColor.enumerators]

theorem NvAttribute.predefined_colors_getD (color : NvColor) :
    NvAttribute.predefined_colors[color.static_cast_size_t]? =
      some (NvAttribute.predefined_colors.getD color.static_cast_size_t 0) := by
  cases color <;> rfl

/-- Claim C10: for every enumerator of `NvColor` the index
`static_cast<size_t>(color)` of the private constructor is below the length 16
of `predefined_colors`, so the unchecked read finds an entry; the enumerators
are 16, every colour is one of them, and their ordinals are 0, 1, ..., 15 in
declaration order, one table entry each. -/
theorem predefined_colors_index_in_bounds (color : NvColor) :
    color.static_cast_size_t < NvAttribute.predefined_colors.length ∧
    NvAttribute.predefined_colors.length = 16 ∧
    (∃ entry, NvAttribute.predefined_colors[color.static_cast_size_t]? = some entry) ∧
    color ∈ NvColor.enumerators ∧
    NvColor.enumerators.length = NvAttribute.predefined_colors.length ∧
    NvColor.enumerators.map NvColor.static_cast_size_t =
      List.range NvAttribute.predefined_colors.length := by
  refine ⟨?_, rfl, ⟨_, NvAttribute.predefined_colors_getD color⟩,
    NvColor.mem_enumerators color, rfl, by decide⟩
  cases color <;> decide

/-- Claim C2: for every colour and every public constructor of `NvAttribute`
(raw text, `std::string`, registered string) the colour field of the descriptor
is the entry of `predefined_colors` at the ordinal of the colour, so `red`
gives 0xFFFF0000 and `light_gray` gives 0xFFAAAAAA; and for every colour other
than `unknown` the colour type is `NVTX_COLOR_ARGB`. -/
theorem NvAttribute_color_is_table_entry (lib : NvToolsExt) (uninit : nvtxEventAttributes_t)
    (msg : CharPtr) (str : StdString) (reg : NvRegisteredString) (color : NvColor)
    (category : Nat) :
    (NvAttribute.predefined_colors[color.static_cast_size_t]? =
        some (NvAttribute.ctor lib uninit msg color category).attr.color ∧
      NvAttribute.predefined_colors[color.static_cast_size_t]? =
        some (NvAttribute.ctor_string lib uninit str color category).attr.color ∧
      NvAttribute.predefined_colors[color.static_cast_size_t]? =
        some (NvAttribute.ctor_registered lib uninit reg color category).attr.color) ∧
    ((NvAttribute.ctor lib uninit msg NvColor.red category).attr.color = 0xFFFF0000 ∧
      (NvAttribute.ctor_string lib uninit str NvColor.red category).attr.color = 0xFFFF0000 ∧
      (NvAttribute.ctor_registered lib uninit reg NvColor.red category).attr.color
        = 0xFFFF0000) ∧
    ((NvAttribute.ctor lib uninit msg NvColor.light_gray category).attr.color = 0xFFAAAAAA ∧
      (NvAttribute.ctor_string lib uninit str NvColor.light_gray category).attr.color
        = 0xFFAAAAAA ∧
      (NvAttribute.ctor_registered lib uninit reg NvColor.light_gray category).attr.color
        = 0xFFAAAAAA) ∧
    (color ≠ NvColor.unknown →
      (NvAttribute.ctor lib uninit msg color category).attr.colorType
        = nvtxColorType_t.NVTX_COLOR_ARGB ∧
      (NvAttribute.ctor_string lib uninit str color category).attr.colorType
        = nvtxColorType_t.NVTX_COLOR_ARGB ∧
      (NvAttribute.ctor_registered lib uninit reg color category).attr.colorType
        = nvtxColorType_t.NVTX_COLOR_ARGB) := by
  refine ⟨⟨?_, ?_, ?_⟩, ⟨rfl, rfl, rfl⟩, ⟨rfl, rfl, rfl⟩, ?_⟩
  · exact NvAttribute.predefined_colors_getD color
  · exact NvAttribute.predefined_colors_getD color
  · exact NvAttribute.predefined_colors_getD color
  · intro h
    simp [NvAttribute.ctor, NvAttribute.ctor_string, NvAttribute.ctor_registered,
      NvAttribute.ctor_private, h]

/-- Claim C3, as stated, fails: built with colour `unknown`, the descriptor has
colour type `NVTX_COLOR_UNKNOWN`, but its colour field is exactly entry 0 of
`predefined_colors`, which the private constructor reads for every colour. -/
theorem unknown_color_never_table_entry_zero_refuted :
    ¬ ((NvAttribute.ctor NvToolsExt.counting nvtxEventAttributes_t.stale { addr := 4096 }
          NvColor.unknown 0).attr.colorType = nvtxColorType_t.NVTX_COLOR_UNKNOWN ∧
       NvAttribute.predefined_colors[0]? ≠
        some (NvAttribute.ctor NvToolsExt.counting nvtxEventAttributes_t.stale { addr := 4096 }
          NvColor.unknown 0).attr.color) := by
  decide

/-- Claim C3, amended: built with colour `unknown`, given explicitly or
by default, by any public constructor, the descriptor has colour type
`NVTX_COLOR_UNKNOWN`, and its colour field is the entry of `predefined_colors`
at the ordinal 0 of `unknown`, the value 0x00000000. -/
theorem unknown_color_reads_table_entry_zero (lib : NvToolsExt)
    (uninit : nvtxEventAttributes_t) (msg : CharPtr) (str : StdString)
    (reg : NvRegisteredString) (category : Nat) :
    NvAttribute.default_color = NvColor.unknown ∧
    NvColor.unknown.static_cast_size_t = 0 ∧
    ((NvAttribute.ctor lib uninit msg NvColor.unknown category).attr.colorType
        = nvtxColorType_t.NVTX_COLOR_UNKNOWN ∧
      (NvAttribute.ctor_string lib uninit str NvColor.unknown category).attr.colorType
        = nvtxColorType_t.NVTX_COLOR_UNKNOWN ∧
      (NvAttribute.ctor_registered lib uninit reg NvColor.unknown category).attr.colorType
        = nvtxColorType_t.NVTX_COLOR_UNKNOWN) ∧
    (NvAttribute.predefined_colors[0]? =
        some (NvAttribute.ctor lib uninit msg NvColor.unknown category).attr.color ∧
      NvAttribute.predefined_colors[0]? =
        some (NvAttribute.ctor_string lib uninit str NvColor.unknown category).attr.color ∧
      NvAttribute.predefined_colors[0]? =
        some (NvAttribute.ctor_registered lib uninit reg NvColor.unknown category).attr.color) ∧
    ((NvAttribute.ctor lib uninit msg NvColor.unknown category).attr.color = 0x00000000 ∧
      (NvAttribute.ctor_string lib uninit str NvColor.unknown category).attr.color
        = 0x00000000 ∧
      (NvAttribute.ctor_registered lib uninit reg NvColor.unknown category).attr.color
        = 0x00000000) :=
  ⟨rfl, rfl, ⟨rfl, rfl, rfl⟩, ⟨rfl, rfl, rfl⟩, ⟨rfl, rfl, rfl⟩⟩

/-- Claim C4: for every colour and category, an attribute built from raw text
(`const char*` or `std::string`) has message type `NVTX_MESSAGE_TYPE_ASCII` and
its message holds exactly that text pointer; one built from a registered string
has message type `NVTX_MESSAGE_TYPE_REGISTERED` and its message holds exactly
the handle of that string; the two discriminants differ; and whatever the
storage held before, the discriminant names the member that is stored. -/
theorem NvAttribute_message_tag_consistent (lib : NvToolsExt)
    (uninit : nvtxEventAttributes_t) (msg : CharPtr) (str : StdString)
    (reg : NvRegisteredString) (color : NvColor) (category : Nat) :
    ((NvAttribute.ctor lib uninit msg color category).attr.messageType
        = nvtxMessageType_t.NVTX_MESSAGE_TYPE_ASCII ∧
      (NvAttribute.ctor lib uninit msg color category).attr.message
        = nvtxMessageValue_t.ascii msg) ∧
    ((NvAttribute.ctor_string lib uninit str color category).attr.messageType
        = nvtxMessageType_t.NVTX_MESSAGE_TYPE_ASCII ∧
      (NvAttribute.ctor_string lib uninit str color category).attr.message
        = nvtxMessageValue_t.ascii str.c_str) ∧
    ((NvAttribute.ctor_registered lib uninit reg color category).attr.messageType
        = nvtxMessageType_t.NVTX_MESSAGE_TYPE_REGISTERED ∧
      (NvAttribute.ctor_registered lib uninit reg color category).attr.message
        = nvtxMessageValue_t.registered reg.handle) ∧
    (nvtxMessageType_t.NVTX_MESSAGE_TYPE_ASCII ≠ nvtxMessageType_t.NVTX_MESSAGE_TYPE_REGISTERED ∧
      (NvAttribute.ctor lib uninit msg color category).attr.messageType ≠
        (NvAttribute.ctor_registered lib uninit reg color category).attr.messageType ∧
      (NvAttribute.ctor_string lib uninit str color category).attr.messageType ≠
        (NvAttribute.ctor_registered lib uninit reg color category).attr.messageType) ∧
    ((NvAttribute.ctor lib uninit msg color category).attr.tagNamesVariant = true ∧
      (NvAttribute.ctor_string lib uninit str color category).attr.tagNamesVariant = true ∧
      (NvAttribute.ctor_registered lib uninit reg color category).attr.tagNamesVariant
        = true) := by
  refine ⟨⟨rfl, rfl⟩, ⟨rfl, rfl⟩, ⟨rfl, rfl⟩, ⟨by decide, ?_, ?_⟩, ⟨rfl, rfl, rfl⟩⟩
  · show nvtxMessageType_t.NVTX_MESSAGE_TYPE_ASCII ≠ nvtxMessageType_t.NVTX_MESSAGE_TYPE_REGISTERED
    decide
  · show nvtxMessageType_t.NVTX_MESSAGE_TYPE_ASCII ≠ nvtxMessageType_t.NVTX_MESSAGE_TYPE_REGISTERED
    decide

/-- Claim C9: for every category value and every public constructor of
`NvAttribute` the category field of the descriptor is the given category,
unchanged; the version and size fields are the constants `NVTX_VERSION` and
`NVTX_EVENT_ATTRIB_STRUCT_SIZE` whatever the arguments; and with colour and
category omitted the descriptor has category 0 and colour `unknown`. -/
theorem NvAttribute_category_version_size (lib : NvToolsExt)
    (uninit : nvtxEventAttributes_t) (msg : CharPtr) (str : StdString)
    (reg : NvRegisteredString) (color : NvColor) (category : Nat) :
    ((NvAttribute.ctor lib uninit msg color category).attr.category = category ∧
      (NvAttribute.ctor_string lib uninit str color category).attr.category = category ∧
      (NvAttribute.ctor_registered lib uninit reg color category).attr.category = category) ∧
    ((NvAttribute.ctor lib uninit msg color category).attr.version = lib.NVTX_VERSION ∧
      (NvAttribute.ctor_string lib uninit str color category).attr.version
        = lib.NVTX_VERSION ∧
      (NvAttribute.ctor_registered lib uninit reg color category).attr.version
        = lib.NVTX_VERSION) ∧
    ((NvAttribute.ctor lib uninit msg color category).attr.size
        = lib.NVTX_EVENT_ATTRIB_STRUCT_SIZE ∧
      (NvAttribute.ctor_string lib uninit str color category).attr.size
        = lib.NVTX_EVENT_ATTRIB_STRUCT_SIZE ∧
      (NvAttribute.ctor_registered lib uninit reg color category).attr.size
        = lib.NVTX_EVENT_ATTRIB_STRUCT_SIZE) ∧
    (NvAttribute.default_color = NvColor.unknown ∧ NvAttribute.default_category = 0) ∧
    ((NvAttribute.ctor lib uninit msg NvAttribute.default_color
          NvAttribute.default_category).attr.category = 0 ∧
      (NvAttribute.ctor_string lib uninit str NvAttribute.default_color
          NvAttribute.default_category).attr.category = 0 ∧
      (NvAttribute.ctor_registered lib uninit reg NvAttribute.default_color
          NvAttribute.default_category).attr.category = 0) ∧
    ((NvAttribute.ctor lib uninit msg NvAttribute.default_color
          NvAttribute.default_category).attr.colorType
        = nvtxColorType_t.NVTX_COLOR_UNKNOWN ∧
      (NvAttribute.ctor_string lib uninit str NvAttribute.default_color
          NvAttribute.default_category).attr.colorType
        = nvtxColorType_t.NVTX_COLOR_UNKNOWN ∧
      (NvAttribute.ctor_registered lib uninit reg NvAttribute.default_color
          NvAttribute.default_category).attr.colorType
        = nvtxColorType_t.NVTX_COLOR_UNKNOWN) :=
  ⟨⟨rfl, rfl, rfl⟩, ⟨rfl, rfl, rfl⟩, ⟨rfl, rfl, rfl⟩, ⟨rfl, rfl⟩, ⟨rfl, rfl, rfl⟩,
    ⟨rfl, rfl, rfl⟩⟩

/-! ## Ranges and marks -/

/-- Claim C1: with the backend as a log of calls, for each of the four
instantiations of `NvRange` and every constructor argument, constructing the
range and letting it leave scope appends exactly two calls, the begin call and
then the end call of the matching family, and nothing else. -/
theorem NvRange_block_begin_then_end (lib : NvToolsExt) (name : CharPtr) (attr : NvAttribute)
    (domain : NvDomain) (log : Log) :
    (block (details.range_ops_thread_none.ctor name)
        (NvRange.dtor NvRangeMode.thread NvDomainMode.none) log
        = log ++ [Call.nvtxRangePush name, Call.nvtxRangePop] ∧
      block (details.range_ops_thread_none.ctor_attr attr)
        (NvRange.dtor NvRangeMode.thread NvDomainMode.none) log
        = log ++ [Call.nvtxRangePushEx attr.attr, Call.nvtxRangePop]) ∧
    block (details.range_ops_thread_custom.ctor domain attr)
        (NvRange.dtor NvRangeMode.thread NvDomainMode.custom) log
      = log ++ [Call.nvtxDomainRangePushEx domain.handle attr.attr,
          Call.nvtxDomainRangePop domain.handle] ∧
    (block (details.range_ops_process_none.ctor lib name)
        (NvRange.dtor NvRangeMode.process NvDomainMode.none) log
        = log ++ [Call.nvtxRangeStart name, Call.nvtxRangeEnd (lib.nvtxRangeStart log name)] ∧
      block (details.range_ops_process_none.ctor_attr lib attr)
        (NvRange.dtor NvRangeMode.process NvDomainMode.none) log
        = log ++ [Call.nvtxRangeStartEx attr.attr,
            Call.nvtxRangeEnd (lib.nvtxRangeStartEx log attr.attr)]) ∧
    block (details.range_ops_process_custom.ctor lib domain attr)
        (NvRange.dtor NvRangeMode.process NvDomainMode.custom) log
      = log ++ [Call.nvtxDomainRangeStartEx domain.handle attr.attr,
          Call.nvtxDomainRangeEnd domain.handle
            (lib.nvtxDomainRangeStartEx log domain.handle attr.attr)] := by
  simp [block, NvRange.dtor, details.range_ops.end_,
    details.range_ops_thread_none.ctor, details.range_ops_thread_none.ctor_attr,
    details.range_ops_thread_none.end_, details.range_ops_thread_custom.ctor,
    details.range_ops_thread_custom.end_, details.range_ops_process_none.ctor,
    details.range_ops_process_none.ctor_attr, details.range_ops_process_none.end_,
    details.range_ops_process_custom.ctor, details.range_ops_process_custom.end_]

/-- Claim C8: constructing an `NvMark` makes exactly one backend call and its
destruction makes none: `nvtxMark(text)` or `nvtxMarkEx(descriptor)` in the mode
of the default domain, `nvtxDomainMarkEx(domain handle, descriptor)` in the mode
of a custom domain, each with the arguments of the constructor. -/
theorem NvMark_one_call_at_construction (name : CharPtr) (attr : NvAttribute)
    (domain : NvDomain) (log : Log) :
    ((details.mark_ops_none.ctor name log).2 = log ++ [Call.nvtxMark name] ∧
      (details.mark_ops_none.ctor_attr attr log).2 = log ++ [Call.nvtxMarkEx attr.attr] ∧
      (details.mark_ops_custom.ctor domain attr log).2
        = log ++ [Call.nvtxDomainMarkEx domain.handle attr.attr]) ∧
    ((∀ m : NvSimpleMark, NvMark.dtor NvDomainMode.none m log = log) ∧
      (∀ m : NvDomainMark, NvMark.dtor NvDomainMode.custom m log = log)) ∧
    (block (details.mark_ops_none.ctor name) (NvMark.dtor NvDomainMode.none) log
        = log ++ [Call.nvtxMark name] ∧
      block (details.mark_ops_none.ctor_attr attr) (NvMark.dtor NvDomainMode.none) log
        = log ++ [Call.nvtxMarkEx attr.attr] ∧
      block (details.mark_ops_custom.ctor domain attr) (NvMark.dtor NvDomainMode.custom) log
        = log ++ [Call.nvtxDomainMarkEx domain.handle attr.attr]) :=
  ⟨⟨rfl, rfl, rfl⟩, ⟨fun _ => rfl, fun _ => rfl⟩, ⟨rfl, rfl, rfl⟩⟩

/-- Claim C5: the end call of a range carries the identifiers its own begin
call established.  In both free-token modes the token passed to `nvtxRangeEnd`
or `nvtxDomainRangeEnd` is the one the begin call of this range returned,
whatever was called in between; in both custom-domain modes the domain handle
of the end call is the handle of the domain given to the constructor.  For two
free-token ranges X and Y opened in either order and closed Y then X, the
first end call carries the token of Y and the second the token of X. -/
theorem NvRange_end_carries_own_identifiers (lib : NvToolsExt) (name : CharPtr)
    (attr : NvAttribute) (domain : NvDomain) (x y : EmitArg) (log later : Log) :
    (NvRange.dtor NvRangeMode.process NvDomainMode.none
        (details.range_ops_process_none.ctor lib name log).1 later
        = later ++ [Call.nvtxRangeEnd (lib.nvtxRangeStart log name)] ∧
      NvRange.dtor NvRangeMode.process NvDomainMode.none
        (details.range_ops_process_none.ctor_attr lib attr log).1 later
        = later ++ [Call.nvtxRangeEnd (lib.nvtxRangeStartEx log attr.attr)]) ∧
    NvRange.dtor NvRangeMode.process NvDomainMode.custom
        (details.range_ops_process_custom.ctor lib domain attr log).1 later
      = later ++ [Call.nvtxDomainRangeEnd domain.handle
          (lib.nvtxDomainRangeStartEx log domain.handle attr.attr)] ∧
    NvRange.dtor NvRangeMode.thread NvDomainMode.custom
        (details.range_ops_thread_custom.ctor domain attr log).1 later
      = later ++ [Call.nvtxDomainRangePop domain.handle] ∧
    openXYcloseYX lib x y log
      = log ++ [x.startCall, y.startCall,
          Call.nvtxRangeEnd (y.startToken lib (log ++ [x.startCall])),
          Call.nvtxRangeEnd (x.startToken lib log)] ∧
    openYXcloseYX lib x y log
      = log ++ [y.startCall, x.startCall,
          Call.nvtxRangeEnd (y.startToken lib log),
          Call.nvtxRangeEnd (x.startToken lib (log ++ [y.startCall]))] := by
  refine ⟨⟨rfl, rfl⟩, rfl, rfl, ?_, ?_⟩
  · cases x <;> cases y <;>
      simp [openXYcloseYX, NvProcessRange.construct, NvRange.dtor, details.range_ops.end_,
        details.range_ops_process_none.ctor, details.range_ops_process_none.ctor_attr,
        details.range_ops_process_none.end_, EmitArg.startCall, EmitArg.startToken]
  · cases x <;> cases y <;>
      simp [openYXcloseYX, NvProcessRange.construct, NvRange.dtor, details.range_ops.end_,
        details.range_ops_process_none.ctor, details.range_ops_process_none.ctor_attr,
        details.range_ops_process_none.end_, EmitArg.startCall, EmitArg.startToken]

/-! ## Nested thread-stack ranges -/

theorem nestedThreadRanges_log (args : List EmitArg) (log : Log) :
    nestedThreadRanges args log
      = log ++ args.map EmitArg.pushCall ++ List.replicate args.length Call.nvtxRangePop := by
  induction args generalizing log with
  | nil => simp [nestedThreadRanges]
  | cons a inner ih =>
    have hctor : (NvThreadRange.construct a log).2 = log ++ [a.pushCall] := by
      cases a <;> rfl
    have hstep : nestedThreadRanges (a :: inner) log
        = nestedThreadRanges inner (NvThreadRange.construct a log).2 ++ [Call.nvtxRangePop] := rfl
    rw [hstep, hctor, ih]
    simp [List.replicate_add]

theorem ThreadStack.replay_append (s : ThreadStack) (xs ys : List Call) :
    s.replay (xs ++ ys) = (s.replay xs).replay ys := by
  simp [ThreadStack.replay, List.foldl_append]

theorem ThreadStack.replay_pushes (args : List EmitArg) (s : ThreadStack) :
    s.replay (args.map EmitArg.pushCall)
      = { opened := (args.map EmitArg.pushCall).reverse ++ s.opened, popped := s.popped } := by
  induction args generalizing s with
  | nil => rfl
  | cons a rest ih =>
    have hstep : s.replay ((a :: rest).map EmitArg.pushCall)
        = (s.step a.pushCall).replay (rest.map EmitArg.pushCall) := rfl
    have hpush : s.step a.pushCall = { opened := a.pushCall :: s.opened, popped := s.popped } := by
      cases a <;> rfl
    rw [hstep, hpush, ih]
    simp

theorem ThreadStack.replay_pops (top below popped : List Call) :
    ThreadStack.replay { opened := top ++ below, popped := popped }
        (List.replicate top.length Call.nvtxRangePop)
      = { opened := below, popped := popped ++ top } := by
  induction top generalizing popped with
  | nil => simp [ThreadStack.replay]
  | cons c rest ih =>
    have hstep : ThreadStack.replay { opened := (c :: rest) ++ below, popped := popped }
          (List.replicate (c :: rest).length Call.nvtxRangePop)
        = ThreadStack.replay { opened := rest ++ below, popped := popped ++ [c] }
          (List.replicate rest.length Call.nvtxRangePop) := rfl
    rw [hstep, ih]
    simp

/-- Claim C6: thread-stack default-domain ranges opened in nested scopes give a
strictly nested log.  Range A, then nested range B, then B and A leaving scope
give begin(A), begin(B), end(B), end(A); for every nesting depth n the log is
the n pushes in opening order followed by n pops; replayed on the range stack
of the thread, the pops close the ranges in the reverse of the opening order,
each one the most recently pushed range still open, and the stack ends as it
started. -/
theorem nested_thread_ranges_strictly_nested (a b : EmitArg) (nameA nameB : CharPtr)
    (args : List EmitArg) (log : Log) (stack : ThreadStack) :
    nestedThreadRanges [EmitArg.name nameA, EmitArg.name nameB] log
      = log ++ [Call.nvtxRangePush nameA, Call.nvtxRangePush nameB,
          Call.nvtxRangePop, Call.nvtxRangePop] ∧
    nestedThreadRanges [a, b] log
      = log ++ [a.pushCall, b.pushCall, Call.nvtxRangePop, Call.nvtxRangePop] ∧
    nestedThreadRanges args log
      = log ++ args.map EmitArg.pushCall ++ List.replicate args.length Call.nvtxRangePop ∧
    stack.replay ((nestedThreadRanges args log).drop log.length)
      = { opened := stack.opened,
          popped := stack.popped ++ (args.map EmitArg.pushCall).reverse } ∧
    (stack.replay ((nestedThreadRanges args log).drop log.length)).opened.length
      = stack.opened.length := by
  have hreplay : stack.replay ((nestedThreadRanges args log).drop log.length)
      = { opened := stack.opened,
          popped := stack.popped ++ (args.map EmitArg.pushCall).reverse } := by
    rw [nestedThreadRanges_log, List.append_assoc, List.drop_left,
      ThreadStack.replay_append, ThreadStack.replay_pushes]
    have hlen : args.length = (args.map EmitArg.pushCall).reverse.length := by simp
    rw [hlen, ThreadStack.replay_pops]
  refine ⟨?_, ?_, nestedThreadRanges_log args log, hreplay, ?_⟩
  · simpa [EmitArg.pushCall] using
      nestedThreadRanges_log [EmitArg.name nameA, EmitArg.name nameB] log
  · simpa using nestedThreadRanges_log [a, b] log
  · rw [hreplay]

/-! ## The lifetime of a domain -/

theorem DomainClient.run_log (lib : NvToolsExt) (domain : NvDomain) (client : DomainClient)
    (strings : List NvRegisteredString) (log : Log) :
    ∃ mid : List Call, (client.run lib domain strings log).2 = log ++ mid ∧
      mid.all (Call.isAgainst domain.handle) = true := by
  induction client generalizing strings log with
  | skip => exact ⟨[], by simp [DomainClient.run], rfl⟩
  | seq first second ih1 ih2 =>
    obtain ⟨m1, h1, a1⟩ := ih1 strings log
    obtain ⟨m2, h2, a2⟩ := ih2 (first.run lib domain strings log).1
      (first.run lib domain strings log).2
    refine ⟨m1 ++ m2, ?_, ?_⟩
    · have hstep : ((DomainClient.seq first second).run lib domain strings log).2
          = (second.run lib domain (first.run lib domain strings log).1
              (first.run lib domain strings log).2).2 := rfl
      rw [hstep, h2, h1, List.append_assoc]
    · rw [List.all_append, a1, a2]; rfl
  | registeredString string =>
    exact ⟨[Call.nvtxDomainRegisterString domain.handle string], rfl,
      by simp [Call.isAgainst]⟩
  | registeredStdString string =>
    exact ⟨[Call.nvtxDomainRegisterString domain.handle string.c_str], rfl,
      by simp [Call.isAgainst]⟩
  | mark attr =>
    exact ⟨[Call.nvtxDomainMarkEx domain.handle (attr strings).attr], rfl,
      by simp [Call.isAgainst]⟩
  | threadRange attr body ih =>
    obtain ⟨m, h, a⟩ := ih strings
      (log ++ [Call.nvtxDomainRangePushEx domain.handle (attr strings).attr])
    refine ⟨[Call.nvtxDomainRangePushEx domain.handle (attr strings).attr] ++ m
      ++ [Call.nvtxDomainRangePop domain.handle], ?_, ?_⟩
    · have hstep : ((DomainClient.threadRange attr body).run lib domain strings log).2
          = (body.run lib domain strings
              (log ++ [Call.nvtxDomainRangePushEx domain.handle (attr strings).attr])).2
            ++ [Call.nvtxDomainRangePop domain.handle] := rfl
      rw [hstep, h]
      simp
    · simp [List.all_append, a, Call.isAgainst]
  | processRange attr body ih =>
    obtain ⟨m, h, a⟩ := ih strings
      (log ++ [Call.nvtxDomainRangeStartEx domain.handle (attr strings).attr])
    refine ⟨[Call.nvtxDomainRangeStartEx domain.handle (attr strings).attr] ++ m
      ++ [Call.nvtxDomainRangeEnd domain.handle
            (lib.nvtxDomainRangeStartEx log domain.handle (attr strings).attr)], ?_, ?_⟩
    · have hstep : ((DomainClient.processRange attr body).run lib domain strings log).2
          = (body.run lib domain strings
              (log ++ [Call.nvtxDomainRangeStartEx domain.handle (attr strings).attr])).2
            ++ [Call.nvtxDomainRangeEnd domain.handle
                (lib.nvtxDomainRangeStartEx log domain.handle (attr strings).attr)] := rfl
      rw [hstep, h]
      simp
    · simp [List.all_append, a, Call.isAgainst]

theorem Call.countP_create_destroy_of_all_isAgainst (h : nvtxDomainHandle_t) (mid : List Call)
    (hall : mid.all (Call.isAgainst h) = true) :
    mid.countP Call.isDomainCreate = 0 ∧ mid.countP Call.isDomainDestroy = 0 := by
  induction mid with
  | nil => exact ⟨rfl, rfl⟩
  | cons c rest ih =>
    rw [List.all_cons, Bool.and_eq_true] at hall
    obtain ⟨hc, hrest⟩ := hall
    obtain ⟨ih1, ih2⟩ := ih hrest
    cases c <;> simp_all [Call.isAgainst, Call.isDomainCreate, Call.isDomainDestroy]

/-- Claim C7: for every domain name and every client of the domain (any number
of registered strings, marks and ranges created against it during its
lifetime), the calls appended by the block that owns the domain are one
`nvtxDomainCreate` first and one `nvtxDomainDestroy` last, with no other create
or destroy call; the destroy call receives the handle the create call returned;
`handle()` is that handle, and every call made in between is made against
it. -/
theorem NvDomain_created_once_destroyed_once (lib : NvToolsExt) (domainName : CharPtr)
    (client : DomainClient) (log : Log) :
    (NvDomain.ctor lib domainName log).1.handle = lib.nvtxDomainCreate log domainName ∧
    (∃ mid : List Call,
      NvDomain.scope lib domainName client log
        = log ++ [Call.nvtxDomainCreate domainName] ++ mid
          ++ [Call.nvtxDomainDestroy (lib.nvtxDomainCreate log domainName)] ∧
      mid.all (Call.isAgainst (lib.nvtxDomainCreate log domainName)) = true) ∧
    ((NvDomain.scope lib domainName client log).drop log.length).countP
      Call.isDomainCreate = 1 ∧
    ((NvDomain.scope lib domainName client log).drop log.length).countP
      Call.isDomainDestroy = 1 := by
  obtain ⟨mid, hmid, hall⟩ := DomainClient.run_log lib (NvDomain.ctor lib domainName log).1
    client [] (NvDomain.ctor lib domainName log).2
  have hhandle : (NvDomain.ctor lib domainName log).1.handle
      = lib.nvtxDomainCreate log domainName := rfl
  rw [hhandle] at hall
  have hscope : NvDomain.scope lib domainName client log
      = log ++ [Call.nvtxDomainCreate domainName] ++ mid
        ++ [Call.nvtxDomainDestroy (lib.nvtxDomainCreate log domainName)] := by
    have hstep : NvDomain.scope lib domainName client log
        = (client.run lib (NvDomain.ctor lib domainName log).1 []
            (NvDomain.ctor lib domainName log).2).2
          ++ [Call.nvtxDomainDestroy (lib.nvtxDomainCreate log domainName)] := rfl
    rw [hstep, hmid]
    rfl
  obtain ⟨hc, hd⟩ := Call.countP_create_destroy_of_all_isAgainst _ mid hall
  refine ⟨rfl, ⟨mid, hscope, hall⟩, ?_, ?_⟩
  · rw [hscope, List.append_assoc, List.append_assoc, List.drop_left]
    simp [List.countP_append, hc, Call.isDomainCreate, List.countP_cons]
  · rw [hscope, List.append_assoc, List.append_assoc, List.drop_left]
    simp [List.countP_append, hd, Call.isDomainDestroy, List.countP_cons]

/-! ## Worked examples -/

/-- A domain block with one registered string, a free-token range whose
attribute uses that string, and a mark inside the range, run on the counting
backend from an empty log. -/
theorem NvDomain.scope_worked_example :
    NvDomain.scope NvToolsExt.counting ⟨100⟩
        (DomainClient.seq (DomainClient.registeredString ⟨200⟩)
          (DomainClient.processRange
            (fun strings => NvAttribute.ctor_registered NvToolsExt.counting
              nvtxEventAttributes_t.stale (strings.headD ⟨⟨0⟩⟩) NvColor.red 7)
            (DomainClient.mark
              (fun _ => NvAttribute.ctor NvToolsExt.counting nvtxEventAttributes_t.stale
                ⟨300⟩ NvColor.unknown 0)))) []
      = [Call.nvtxDomainCreate ⟨100⟩,
         Call.nvtxDomainRegisterString ⟨1⟩ ⟨200⟩,
         Call.nvtxDomainRangeStartEx ⟨1⟩
           { version := 2, size := 48, category := 7,
             colorType := nvtxColorType_t.NVTX_COLOR_ARGB, color := 0xFFFF0000,
             messageType := nvtxMessageType_t.NVTX_MESSAGE_TYPE_REGISTERED,
             message := nvtxMessageValue_t.registered ⟨2⟩ },
         Call.nvtxDomainMarkEx ⟨1⟩
           { version := 2, size := 48, category := 0,
             colorType := nvtxColorType_t.NVTX_COLOR_UNKNOWN, color := 0,
             messageType := nvtxMessageType_t.NVTX_MESSAGE_TYPE_ASCII,
             message := nvtxMessageValue_t.ascii ⟨300⟩ },
         Call.nvtxDomainRangeEnd ⟨1⟩ ⟨3⟩,
         Call.nvtxDomainDestroy ⟨1⟩] := by
  decide

/-- Three nested thread-stack ranges after one earlier call, and the effect of
the appended calls on a range stack that already holds one open range. -/
theorem nestedThreadRanges_worked_example :
    nestedThreadRanges [EmitArg.name ⟨1⟩, EmitArg.name ⟨2⟩, EmitArg.name ⟨3⟩]
        [Call.nvtxMark ⟨9⟩]
      = [Call.nvtxMark ⟨9⟩, Call.nvtxRangePush ⟨1⟩, Call.nvtxRangePush ⟨2⟩,
         Call.nvtxRangePush ⟨3⟩, Call.nvtxRangePop, Call.nvtxRangePop, Call.nvtxRangePop] ∧
    ThreadStack.replay { opened := [Call.nvtxRangePush ⟨0⟩], popped := [] }
        [Call.nvtxRangePush ⟨1⟩, Call.nvtxRangePush ⟨2⟩, Call.nvtxRangePush ⟨3⟩,
         Call.nvtxRangePop, Call.nvtxRangePop, Call.nvtxRangePop]
      = { opened := [Call.nvtxRangePush ⟨0⟩],
          popped := [Call.nvtxRangePush ⟨3⟩, Call.nvtxRangePush ⟨2⟩,
            Call.nvtxRangePush ⟨1⟩] } := by
  decide

/-- Two free-token ranges on the counting backend: X is opened first and gets
token 1, Y second and gets token 2; closing Y then X ends 2 and then 1. -/
theorem openXYcloseYX_worked_example :
    openXYcloseYX NvToolsExt.counting (EmitArg.name ⟨10⟩) (EmitArg.name ⟨20⟩) []
      = [Call.nvtxRangeStart ⟨10⟩, Call.nvtxRangeStart ⟨20⟩,
         Call.nvtxRangeEnd ⟨2⟩, Call.nvtxRangeEnd ⟨1⟩] ∧
    openYXcloseYX NvToolsExt.counting (EmitArg.name ⟨10⟩) (EmitArg.name ⟨20⟩) []
      = [Call.nvtxRangeStart ⟨20⟩, Call.nvtxRangeStart ⟨10⟩,
         Call.nvtxRangeEnd ⟨1⟩, Call.nvtxRangeEnd ⟨2⟩] := by
  decide

end nvtx4cpp
